import Mathlib

/-!
Verification development for the DojoTap backend's authentication/session
manager (`backend/app/auth.py`) and its token cipher (`backend/app/crypto.py`).

The Python code is shallowly embedded as follows:
* the SQLAlchemy rows `BrowserSession` and `UserAuthState` become structures,
  and the database becomes an explicit `Store` (lists of rows, looked up by
  primary key exactly as `db.get` does);
* epoch timestamps (`time.time()`) are modelled as integers; within one
  manager call the clock is a single parameter `now`;
* `HTTPException` becomes a structure carrying `status_code` and `detail`,
  and raising becomes returning `Except.error`; every manager operation
  returns its final committed store alongside its outcome, since the code
  commits some writes before raising;
* the network call `_oauth_refresh_tokens` is modelled as an oracle
  function from the refresh token to either a parsed token payload or a
  pre-classified `HTTPException`, and `get_bearer_token` additionally
  returns the list of refresh tokens it sent to the oracle, so that
  "the bridge was invoked" is observable in theorems;
* the Fernet cipher of the external `cryptography` package is opaque to the
  repository; it is modelled by an inductive ciphertext type (a well-formed
  token tagged with the fingerprint of the key that produced it and carrying
  its plaintext, or malformed data, which also covers empty/whitespace
  ciphertext strings); `TokenCipher.encrypt`/`decrypt` themselves follow
  `crypto.py` line by line on top of that model.
-/

/-- `fastapi.HTTPException` as raised throughout `auth.py`. -/
structure HTTPException where
  status_code : Nat
  detail : String
deriving Repr, DecidableEq

/-- Detail string of the 401 raised for an absent/unresolvable/revoked session. -/
def authRequiredDetail : String :=
  "Authentication required. Sign in with your ChessDojo email and password."

/-- Detail string of the 401 raised when stored credentials are unrecoverable. -/
def sessionExpiredDetail : String :=
  "Session expired. Please sign in again with your ChessDojo email and password."

/-- Python's `str.strip()` (no arguments): remove leading and trailing
whitespace. Defined structurally over the character list so that concrete
instances reduce definitionally (Lean's `String.trim` does not). -/
def pyStrip (s : String) : String :=
  String.mk (((s.data.dropWhile Char.isWhitespace).reverse.dropWhile Char.isWhitespace).reverse)

/-- Python's `str.lower()` on the ASCII range (the provider error codes the
classifier lowercases are ASCII identifiers). -/
def pyLower (s : String) : String :=
  String.mk (s.data.map fun c =>
    if 'A' ≤ c ∧ c ≤ 'Z' then Char.ofNat (c.toNat + 32) else c)

/-- Value of a digit run, `none` on a non-digit; base of `pyInt?`. -/
def digitsVal (acc : Nat) : List Char → Option Nat
  | [] => some acc
  | c :: cs => if c.isDigit then digitsVal (acc * 10 + (c.toNat - 48)) cs else none

/-- Python's `int(str)`: optional surrounding whitespace, optional sign, a
non-empty digit run; anything else raises `ValueError`, modelled as `none`. -/
def pyInt? (s : String) : Option Int :=
  match (pyStrip s).data with
  | [] => none
  | '-' :: ds => if ds = [] then none else (digitsVal 0 ds).map fun n => -(n : Int)
  | '+' :: ds => if ds = [] then none else (digitsVal 0 ds).map fun n => (n : Int)
  | ds => (digitsVal 0 ds).map fun n => (n : Int)

/-- Equality of `Except` outcomes is decidable componentwise. -/
instance {ε α : Type} [DecidableEq ε] [DecidableEq α] : DecidableEq (Except ε α) := fun x y =>
  match x, y with
  | .ok a, .ok b =>
      if h : a = b then isTrue (congrArg Except.ok h)
      else isFalse (fun hh => h (Except.ok.inj hh))
  | .error a, .error b =>
      if h : a = b then isTrue (congrArg Except.error h)
      else isFalse (fun hh => h (Except.error.inj hh))
  | .ok _, .error _ => isFalse (fun hh => Except.noConfusion hh)
  | .error _, .ok _ => isFalse (fun hh => Except.noConfusion hh)

/-- Modelled from the spec: ciphertext produced by the external `cryptography`
package's Fernet scheme, which is not part of this repository. A well-formed
Fernet token authenticates the key that produced it (here: a key fingerprint)
and decrypts to exactly the plaintext that was encrypted; anything else —
including the empty or whitespace-only strings that `TokenCipher.decrypt`
rejects up front — fails authentication and is `malformed`. -/
inductive Ciphertext
  | token (keyFingerprint : Nat) (plaintext : String)
  | malformed (raw : String)
deriving Repr, DecidableEq

/-- `TokenCipher` from `crypto.py`: its state is the passphrase-derived key,
modelled by its fingerprint. -/
structure TokenCipher where
  keyFingerprint : Nat
deriving Repr, DecidableEq

/-- `TokenCipher.encrypt`: strip the plaintext (treating `None` as `""`);
empty result encrypts to `None`, otherwise to a Fernet token under this key. -/
def TokenCipher.encrypt (c : TokenCipher) (plaintext : Option String) : Option Ciphertext :=
  let value := pyStrip (plaintext.getD "")
  if value = "" then none
  else some (.token c.keyFingerprint value)

/-- `TokenCipher.decrypt`: `None` or blank ciphertext gives `None`; a Fernet
token under a different key, or malformed data, fails soft (`InvalidToken`
is caught) and gives `None`; a token under this key gives its plaintext. -/
def TokenCipher.decrypt (c : TokenCipher) (ciphertext : Option Ciphertext) : Option String :=
  match ciphertext with
  | none => none
  | some (.malformed _) => none
  | some (.token k s) => if k = c.keyFingerprint then some s else none

/-- Row of table `browser_session` (`db.py`). -/
structure BrowserSession where
  session_id : String
  user_key : String
  access_token : String
  id_token : String
  expires_at_epoch : Int
  last_seen_epoch : Int
  created_at_epoch : Int
  revoked : Bool
deriving Repr, DecidableEq

/-- Row of table `user_auth_state` (`db.py`). -/
structure UserAuthState where
  user_key : String
  refresh_token_encrypted : Option Ciphertext
  username : Option String
  updated_at_epoch : Int
deriving Repr, DecidableEq

/-- The credential store: the two tables the session manager touches. -/
structure Store where
  sessions : List BrowserSession
  users : List UserAuthState
deriving Repr, DecidableEq

/-- `db.get(BrowserSession, sid)`: primary-key lookup. -/
def Store.getSession (st : Store) (sid : String) : Option BrowserSession :=
  st.sessions.find? (fun r => r.session_id = sid)

/-- `db.get(UserAuthState, user_key)`: primary-key lookup. -/
def Store.getUser (st : Store) (uk : String) : Option UserAuthState :=
  st.users.find? (fun u => u.user_key = uk)

/-- Committing a mutation of the session row with the given primary key. -/
def Store.updateSession (st : Store) (sid : String) (f : BrowserSession → BrowserSession) :
    Store :=
  { st with sessions := st.sessions.map (fun r => if r.session_id = sid then f r else r) }

/-- Committing a mutation of the user row with the given primary key. -/
def Store.updateUser (st : Store) (uk : String) (f : UserAuthState → UserAuthState) :
    Store :=
  { st with users := st.users.map (fun u => if u.user_key = uk then f u else u) }

/-- A JSON value as it may appear under `expires_in` in the token endpoint's
payload; `other` stands for values Python's `int()` rejects (lists, dicts). -/
inductive JsonValue
  | num (n : Int)
  | str (s : String)
  | boolean (b : Bool)
  | null
  | other
deriving Repr, DecidableEq

/-- `_to_int` from `auth.py`: Python `int(value)` with a fallback on
`TypeError`/`ValueError`. A missing value (`None`) and `null` raise
`TypeError`; an unparsable string raises `ValueError`; `int(bool)` is 0/1. -/
def _to_int (value : Option JsonValue) (fallback : Int) : Int :=
  match value with
  | some (.num n) => n
  | some (.str s) =>
      match pyInt? s with
      | some n => n
      | none => fallback
  | some (.boolean b) => if b then 1 else 0
  | some .null => fallback
  | some .other => fallback
  | none => fallback

/-- The parsed JSON dict returned by the token endpoint, restricted to the
keys `_session_tokens_from_payload` reads; a `none` field is a missing key. -/
structure TokenPayload where
  id_token : Option String := none
  access_token : Option String := none
  refresh_token : Option String := none
  expires_in : Option JsonValue := none
deriving Repr, DecidableEq

/-- The `SessionTokens` dataclass from `auth.py`. -/
structure SessionTokens where
  access_token : String
  id_token : String
  refresh_token : Option String
  expires_at_epoch : Int
  username : Option String := none
deriving Repr, DecidableEq

/-- `SessionTokens.bearer_token`: Python `self.id_token or self.access_token`. -/
def SessionTokens.bearer_token (s : SessionTokens) : String :=
  if s.id_token = "" then s.access_token else s.id_token

/-- The settings consumed by the modelled manager operations. -/
structure Settings where
  auth_refresh_skew_seconds : Int
deriving Repr, DecidableEq

/-- `LocalAuthManager`'s state: settings and the token cipher. The
`asyncio.Lock` serializes operations; in the model each operation is a pure
step on the store, so the lock needs no representation. -/
structure LocalAuthManager where
  settings : Settings
  token_cipher : TokenCipher
deriving Repr, DecidableEq

/-- The outcome of `_oauth_refresh_tokens` as a function of the refresh token
sent: either the parsed payload dict, or the pre-classified `HTTPException`
(network failure 502, non-JSON 502, or `_map_oauth_token_error`'s result). -/
abbrev RefreshOracle : Type := String → Except HTTPException TokenPayload

namespace LocalAuthManager

/-- `_has_valid_session_token`: `expires_at - skew > now`. -/
def _has_valid_session_token (m : LocalAuthManager) (now : Int)
    (session_record : BrowserSession) : Bool :=
  session_record.expires_at_epoch - m.settings.auth_refresh_skew_seconds > now

/-- `_resolve_bearer_token`: stripped id token, else stripped access token,
else raise 401. -/
def _resolve_bearer_token (session_record : BrowserSession) :
    Except HTTPException String :=
  let bearer :=
    if pyStrip session_record.id_token = "" then pyStrip session_record.access_token
    else pyStrip session_record.id_token
  if bearer = "" then .error ⟨401, authRequiredDetail⟩
  else .ok bearer

/-- `_apply_tokens_to_session`: overwrite bearer material and expiry, touch
`last_seen`, clear `revoked`. -/
def _apply_tokens_to_session (now : Int) (session_record : BrowserSession)
    (tokens : SessionTokens) : BrowserSession :=
  { session_record with
      access_token := tokens.access_token
      id_token := tokens.id_token
      expires_at_epoch := tokens.expires_at_epoch
      last_seen_epoch := now
      revoked := false }

/-- `_session_tokens_from_payload`: strip both bearer fields and fail 502 if
both are blank; normalize a blank refresh token to the stripped fallback or
absence; coerce `expires_in` with default 3600 and floor 60. -/
def _session_tokens_from_payload (now : Int) (token_payload : TokenPayload)
    (username : Option String) (fallback_refresh_token : Option String) :
    Except HTTPException SessionTokens :=
  let id_token := pyStrip (token_payload.id_token.getD "")
  let access_token := pyStrip (token_payload.access_token.getD "")
  if id_token = "" ∧ access_token = "" then
    .error ⟨502, "Missing OAuth bearer token."⟩
  else
    let raw_refresh_token := pyStrip (token_payload.refresh_token.getD "")
    let refresh_token :=
      if raw_refresh_token = "" then
        if pyStrip (fallback_refresh_token.getD "") = "" then none
        else some (pyStrip (fallback_refresh_token.getD ""))
      else some raw_refresh_token
    let expires_in_seconds := max (_to_int token_payload.expires_in 3600) 60
    .ok { access_token := access_token
          id_token := id_token
          refresh_token := refresh_token
          expires_at_epoch := now + expires_in_seconds
          username := username }

/-- The status dictionary returned by `status`, `logout` and
`_anonymous_status`. -/
structure StatusPayload where
  authenticated : Bool
  auth_mode : String
  has_refresh_token : Bool
  username : Option String
  auth_state : String
  needs_relogin : Bool
deriving Repr, DecidableEq

/-- `_anonymous_status`. -/
def _anonymous_status : StatusPayload :=
  { authenticated := false
    auth_mode := "none"
    has_refresh_token := false
    username := none
    auth_state := "expired"
    needs_relogin := true }

/-- `get_user_key_for_session`: read-only; `None` for a blank, missing or
revoked session. -/
def get_user_key_for_session (st : Store) (session_id : Option String) :
    Option String :=
  let normalized_session_id := pyStrip (session_id.getD "")
  if normalized_session_id = "" then none
  else
    match st.getSession normalized_session_id with
    | none => none
    | some session_record =>
        if session_record.revoked then none else some session_record.user_key

/-- `get_bearer_token`. Returns the committed store, the list of refresh
tokens sent to the refresh-grant oracle (empty iff the bridge was never
invoked), and either `(bearer_token, user_key)` or the raised
`HTTPException`. -/
def get_bearer_token (m : LocalAuthManager) (refresh : RefreshOracle) (now : Int)
    (st : Store) (session_id : Option String) (force_refresh : Bool := false) :
    Store × List String × Except HTTPException (String × String) :=
  let normalized_session_id := pyStrip (session_id.getD "")
  if normalized_session_id = "" then
    (st, [], .error ⟨401, authRequiredDetail⟩)
  else
    match st.getSession normalized_session_id with
    | none => (st, [], .error ⟨401, authRequiredDetail⟩)
    | some session_record =>
      if session_record.revoked then
        (st, [], .error ⟨401, authRequiredDetail⟩)
      else
        match st.getUser session_record.user_key with
        | none =>
            (st.updateSession normalized_session_id (fun r => { r with revoked := true }),
             [], .error ⟨401, authRequiredDetail⟩)
        | some user_state =>
          if !force_refresh && m._has_valid_session_token now session_record then
            -- `last_seen` is committed before `_resolve_bearer_token` may raise.
            (st.updateSession normalized_session_id (fun r => { r with last_seen_epoch := now }),
             [],
             match _resolve_bearer_token session_record with
             | .error e => .error e
             | .ok bearer => .ok (bearer, session_record.user_key))
          else
            match m.token_cipher.decrypt user_state.refresh_token_encrypted with
            | none =>
                (st.updateSession normalized_session_id (fun r => { r with revoked := true }),
                 [], .error ⟨401, sessionExpiredDetail⟩)
            | some refresh_token =>
              if refresh_token = "" then
                (st.updateSession normalized_session_id (fun r => { r with revoked := true }),
                 [], .error ⟨401, sessionExpiredDetail⟩)
              else
                match refresh refresh_token with
                | .error exc =>
                  if exc.status_code = 400 ∨ exc.status_code = 401 ∨ exc.status_code = 403 then
                    ((st.updateSession normalized_session_id (fun r => { r with revoked := true })).updateUser
                        session_record.user_key
                        (fun u => { u with refresh_token_encrypted := none, updated_at_epoch := now }),
                     [refresh_token], .error ⟨401, sessionExpiredDetail⟩)
                  else
                    (st, [refresh_token], .error exc)
                | .ok token_payload =>
                  match _session_tokens_from_payload now token_payload user_state.username
                      (some refresh_token) with
                  | .error e => (st, [refresh_token], .error e)
                  | .ok tokens =>
                      ((st.updateSession normalized_session_id
                          (fun r => _apply_tokens_to_session now r tokens)).updateUser
                          session_record.user_key
                          (fun u => { u with
                              refresh_token_encrypted := m.token_cipher.encrypt tokens.refresh_token
                              updated_at_epoch := now }),
                       [refresh_token],
                       .ok (tokens.bearer_token, session_record.user_key))

/-- `logout`. Always returns the anonymous status; with `all_devices` it
nulls the user's refresh token (when the user row exists) and revokes every
session row sharing the `user_key`, otherwise it revokes only the named row. -/
def logout (now : Int) (st : Store) (session_id : Option String)
    (all_devices : Bool := false) : Store × StatusPayload :=
  let normalized_session_id := pyStrip (session_id.getD "")
  if normalized_session_id = "" then (st, _anonymous_status)
  else
    match st.getSession normalized_session_id with
    | none => (st, _anonymous_status)
    | some session_record =>
      if all_devices then
        let st1 :=
          match st.getUser session_record.user_key with
          | some _ =>
              st.updateUser session_record.user_key
                (fun u => { u with refresh_token_encrypted := none, updated_at_epoch := now })
          | none => st
        ({ st1 with
            sessions := st1.sessions.map
              (fun r => if r.user_key = session_record.user_key
                        then { r with revoked := true } else r) },
         _anonymous_status)
      else
        (st.updateSession normalized_session_id (fun r => { r with revoked := true }),
         _anonymous_status)

/-- `status`. The outcome is `Except` because the code's `try` block wraps
only the refresh-grant call itself: `_session_tokens_from_payload`, applied
to a successful refresh payload, can still raise out of `status`. -/
def status (m : LocalAuthManager) (refresh : RefreshOracle) (now : Int)
    (st : Store) (session_id : Option String) :
    Store × Except HTTPException StatusPayload :=
  let normalized_session_id := pyStrip (session_id.getD "")
  if normalized_session_id = "" then (st, .ok _anonymous_status)
  else
    match st.getSession normalized_session_id with
    | none => (st, .ok _anonymous_status)
    | some session_record =>
      if session_record.revoked then (st, .ok _anonymous_status)
      else
        match st.getUser session_record.user_key with
        | none =>
            (st.updateSession normalized_session_id (fun r => { r with revoked := true }),
             .ok _anonymous_status)
        | some user_state =>
          let has_refresh_token :=
            (m.token_cipher.decrypt user_state.refresh_token_encrypted).getD "" ≠ ""
          let username := user_state.username
          if m._has_valid_session_token now session_record then
            (st.updateSession normalized_session_id (fun r => { r with last_seen_epoch := now }),
             .ok { authenticated := true
                   auth_mode := "session"
                   has_refresh_token := has_refresh_token
                   username := username
                   auth_state := "ok"
                   needs_relogin := false })
          else
            match m.token_cipher.decrypt user_state.refresh_token_encrypted with
            | none =>
                (st.updateSession normalized_session_id (fun r => { r with revoked := true }),
                 .ok { authenticated := false
                       auth_mode := "session"
                       has_refresh_token := false
                       username := username
                       auth_state := "expired"
                       needs_relogin := true })
            | some refresh_token =>
              if refresh_token = "" then
                (st.updateSession normalized_session_id (fun r => { r with revoked := true }),
                 .ok { authenticated := false
                       auth_mode := "session"
                       has_refresh_token := false
                       username := username
                       auth_state := "expired"
                       needs_relogin := true })
              else
                match refresh refresh_token with
                | .error exc =>
                  if exc.status_code = 400 ∨ exc.status_code = 401 ∨ exc.status_code = 403 then
                    ((st.updateSession normalized_session_id (fun r => { r with revoked := true })).updateUser
                        session_record.user_key
                        (fun u => { u with refresh_token_encrypted := none, updated_at_epoch := now }),
                     .ok { authenticated := false
                           auth_mode := "session"
                           has_refresh_token := false
                           username := username
                           auth_state := "expired"
                           needs_relogin := true })
                  else
                    (st, .ok { authenticated := false
                               auth_mode := "session"
                               has_refresh_token := true
                               username := username
                               auth_state := "network_error"
                               needs_relogin := false })
                | .ok token_payload =>
                  match _session_tokens_from_payload now token_payload username
                      (some refresh_token) with
                  | .error e => (st, .error e)
                  | .ok tokens =>
                      ((st.updateSession normalized_session_id
                          (fun r => _apply_tokens_to_session now r tokens)).updateUser
                          session_record.user_key
                          (fun u => { u with
                              refresh_token_encrypted := m.token_cipher.encrypt tokens.refresh_token
                              updated_at_epoch := now }),
                       .ok { authenticated := true
                             auth_mode := "session"
                             has_refresh_token := (tokens.refresh_token.getD "") ≠ ""
                             username := username
                             auth_state := "ok"
                             needs_relogin := false })

end LocalAuthManager

/-- A non-2xx token-endpoint response as seen by `_map_oauth_token_error`:
its HTTP status and, when the body parses as a JSON object, the `error` and
`error_description` string fields (each defaulting to `""` when missing);
`none` means a non-JSON or non-object body. -/
structure TokenEndpointResponse where
  status_code : Nat
  json_error : Option (String × String)
deriving Repr, DecidableEq

/-- `_map_oauth_token_error`: the shared OAuth error classifier. -/
def _map_oauth_token_error (response : TokenEndpointResponse) (context : String) :
    HTTPException :=
  let error_code := pyStrip ((response.json_error.map Prod.fst).getD "")
  let error_description := pyStrip ((response.json_error.map Prod.snd).getD "")
  let detail :=
    if error_description = "" then
      "Cognito OAuth " ++ context ++ " failed with status " ++
        toString response.status_code ++ "."
    else error_description
  let normalized := pyLower error_code
  if normalized = "invalid_grant" ∨ normalized = "unauthorized_client" then
    ⟨401, detail⟩
  else if normalized = "invalid_request" ∨ normalized = "unsupported_grant_type" then
    ⟨400, detail⟩
  else if response.status_code = 400 ∨ response.status_code = 401 ∨ response.status_code = 403 then
    ⟨401, detail⟩
  else
    ⟨502, "Cognito OAuth error: " ++ detail⟩

/-! ### Concrete fixtures used by counterexamples and witnesses -/

/-- A cipher instance for concrete scenarios (key fingerprint 1). -/
def testCipher : TokenCipher := ⟨1⟩

/-- Settings with a 120-second refresh skew. -/
def testSettings : Settings := ⟨120⟩

/-- A concrete manager. -/
def testManager : LocalAuthManager := ⟨testSettings, testCipher⟩

/-- Ciphertext of the stored refresh token under `testCipher`. -/
def rtCiphertext : Ciphertext := .token 1 "refresh-token-1"

/-- A live session row for `user@example.com`, expiring at epoch 10000. -/
def liveSession : BrowserSession :=
  { session_id := "s1"
    user_key := "user@example.com"
    access_token := "access-token-1"
    id_token := "id-token-1"
    expires_at_epoch := 10000
    last_seen_epoch := 0
    created_at_epoch := 0
    revoked := false }

/-- The owning user row, holding an encrypted refresh token. -/
def testUser : UserAuthState :=
  { user_key := "user@example.com"
    refresh_token_encrypted := some rtCiphertext
    username := some "user@example.com"
    updated_at_epoch := 0 }

/-- A store with that one session and one user. -/
def testStore : Store := ⟨[liveSession], [testUser]⟩

/-- An oracle whose refresh grant succeeds with fresh bearer material. -/
def okOracle : RefreshOracle := fun _ =>
  .ok { id_token := some "id-token-2"
        access_token := some "access-token-2"
        refresh_token := none
        expires_in := some (.num 3600) }

/-- An oracle whose refresh grant fails with the given classified status. -/
def failOracle (code : Nat) : RefreshOracle := fun _ => .error ⟨code, "refresh failed"⟩

/-- An oracle whose refresh grant succeeds but returns a payload without
bearer material. -/
def blankPayloadOracle : RefreshOracle := fun _ => .ok {}

/-- A second live session for the same user. -/
def liveSession2 : BrowserSession := { liveSession with session_id := "s2" }

/-- A store with two sessions of one user. -/
def twoSessionStore : Store := ⟨[liveSession, liveSession2], [testUser]⟩







/-! ### C8 — cipher round-trip and soft-fail -/

/-- C8 counterexample: `" a"` is non-empty and not whitespace-only, yet the
round trip returns the stripped `"a"`, not `" a"`: `encrypt` strips its
plaintext before encrypting, so `decrypt (encrypt x) = x` fails for
plaintexts with surrounding whitespace. -/
theorem c8_round_trip_counterexample :
    (" a" : String) ≠ "" ∧ pyStrip " a" ≠ "" ∧
    testCipher.decrypt (testCipher.encrypt (some " a")) ≠ some " a" ∧
    testCipher.decrypt (testCipher.encrypt (some " a")) = some "a" := by
  refine ⟨by decide, by decide, by decide, rfl⟩

/-- C8 (amended): for plaintext whose stripped form is non-empty,
`decrypt (encrypt x) = strip x` — so round-trip identity holds exactly for
plaintexts without surrounding whitespace; empty or whitespace-only
plaintext encrypts to `None`; decrypting malformed or wrong-key ciphertext
returns `None` (the code catches `InvalidToken` rather than raising). -/
theorem c8_cipher_round_trip (c : TokenCipher) (x : String) :
    (pyStrip x ≠ "" → c.decrypt (c.encrypt (some x)) = some (pyStrip x)) ∧
    (pyStrip x = "" → c.encrypt (some x) = none) ∧
    (∀ raw, c.decrypt (some (.malformed raw)) = none) ∧
    (∀ k s, k ≠ c.keyFingerprint → c.decrypt (some (.token k s)) = none) := by
  refine ⟨?_, ?_, ?_, ?_⟩
  · intro h
    simp [TokenCipher.encrypt, TokenCipher.decrypt, h]
  · intro h
    simp [TokenCipher.encrypt, h]
  · intro raw
    rfl
  · intro k s hk
    simp [TokenCipher.decrypt, hk]

/-- C8 witness: the round trip at `"refresh-token-1"`, the null encryption of
whitespace, and the soft failures, all concrete. -/
theorem c8_cipher_round_trip_witness :
    pyStrip "refresh-token-1" ≠ "" ∧
    testCipher.decrypt (testCipher.encrypt (some "refresh-token-1")) =
      some (pyStrip "refresh-token-1") ∧
    testCipher.encrypt (some " \t") = none ∧
    testCipher.decrypt (some (.malformed "garbage")) = none ∧
    testCipher.decrypt (some (.token 2 "refresh-token-1")) = none := by
  have h1 := c8_cipher_round_trip testCipher "refresh-token-1"
  have h2 := c8_cipher_round_trip testCipher " \t"
  exact ⟨by decide, h1.1 (by decide), h2.2.1 (by decide),
    h1.2.2.1 "garbage", h1.2.2.2 2 "refresh-token-1" (by decide)⟩

/-! ### C5 — the shared OAuth error classifier -/

/-- C5 counterexample: a 404 response (a 4xx with no recognized error code)
is classified 502, not 401 as the claim's "any other 4xx yields 401" states. -/
theorem c5_classifier_counterexample :
    400 ≤ (404 : Nat) ∧ (404 : Nat) < 500 ∧
    (_map_oauth_token_error ⟨404, none⟩ "refresh").status_code = 502 ∧
    (_map_oauth_token_error ⟨404, none⟩ "refresh").status_code ≠ 401 := by
  refine ⟨by decide, by decide, rfl, by decide⟩

/-- C5 (amended): the classifier maps `invalid_grant`/`unauthorized_client`
to 401 and `invalid_request`/`unsupported_grant_type` to 400 regardless of
HTTP status; with any other (or no) error code, a 400/401/403 status yields
401 and every other status — other 4xx statuses such as 404 included —
yields 502. -/
theorem c5_classifier (response : TokenEndpointResponse) (context : String)
    (normalized : String)
    (hn : pyLower (pyStrip ((response.json_error.map Prod.fst).getD "")) = normalized) :
    (normalized = "invalid_grant" ∨ normalized = "unauthorized_client" →
      (_map_oauth_token_error response context).status_code = 401) ∧
    (normalized ≠ "invalid_grant" → normalized ≠ "unauthorized_client" →
      normalized = "invalid_request" ∨ normalized = "unsupported_grant_type" →
      (_map_oauth_token_error response context).status_code = 400) ∧
    (normalized ≠ "invalid_grant" → normalized ≠ "unauthorized_client" →
      normalized ≠ "invalid_request" → normalized ≠ "unsupported_grant_type" →
      response.status_code = 400 ∨ response.status_code = 401 ∨ response.status_code = 403 →
      (_map_oauth_token_error response context).status_code = 401) ∧
    (normalized ≠ "invalid_grant" → normalized ≠ "unauthorized_client" →
      normalized ≠ "invalid_request" → normalized ≠ "unsupported_grant_type" →
      response.status_code ≠ 400 → response.status_code ≠ 401 → response.status_code ≠ 403 →
      (_map_oauth_token_error response context).status_code = 502) := by
  refine ⟨?_, ?_, ?_, ?_⟩
  · intro h
    simp [_map_oauth_token_error, hn, h]
  · intro h1 h2 h3
    simp [_map_oauth_token_error, hn, h1, h2, h3]
  · intro h1 h2 h3 h4 h5
    simp [_map_oauth_token_error, hn, h1, h2, h3, h4, h5]
  · intro h1 h2 h3 h4 h5 h6 h7
    simp [_map_oauth_token_error, hn, h1, h2, h3, h4, h5, h6, h7]

/-- C5 witness: the four classifier regimes at concrete responses — an
`invalid_grant` 400 goes to 401, an `invalid_request` 400 goes to 400, an
unrecognized-code 403 goes to 401, and a bare 500 goes to 502. -/
theorem c5_classifier_witness :
    (_map_oauth_token_error ⟨400, some ("invalid_grant", "bad token")⟩ "refresh").status_code = 401 ∧
    (_map_oauth_token_error ⟨400, some ("invalid_request", "")⟩ "refresh").status_code = 400 ∧
    (_map_oauth_token_error ⟨403, some ("access_denied", "")⟩ "refresh").status_code = 401 ∧
    (_map_oauth_token_error ⟨500, none⟩ "refresh").status_code = 502 := by
  refine ⟨?_, ?_, ?_, ?_⟩
  · exact (c5_classifier ⟨400, some ("invalid_grant", "bad token")⟩ "refresh"
      "invalid_grant" rfl).1 (Or.inl rfl)
  · exact (c5_classifier ⟨400, some ("invalid_request", "")⟩ "refresh"
      "invalid_request" rfl).2.1 (by decide) (by decide) (Or.inl rfl)
  · exact (c5_classifier ⟨403, some ("access_denied", "")⟩ "refresh"
      "access_denied" rfl).2.2.1 (by decide) (by decide) (by decide) (by decide)
      (Or.inr (Or.inr rfl))
  · exact (c5_classifier ⟨500, none⟩ "refresh" "" rfl).2.2.2 (by decide) (by decide)
      (by decide) (by decide) (by decide) (by decide) (by decide)

/-! ### C7 — token-payload shaping -/

/-- C7: shaping fails 502 when both stripped bearer fields are blank;
otherwise the bearer token is the (stripped) ID token when non-empty and the
access token otherwise, a blank refresh token falls back to the previous one
or to absence, and the expiry is `now` plus `expires_in` coerced to an
integer with default 3600 (missing, null, or unparsable) and floor 60. -/
theorem c7_payload_shaping (now : Int) (p : TokenPayload)
    (username fb : Option String) :
    (pyStrip (p.id_token.getD "") = "" → pyStrip (p.access_token.getD "") = "" →
      LocalAuthManager._session_tokens_from_payload now p username fb =
        .error ⟨502, "Missing OAuth bearer token."⟩) ∧
    (∀ tokens,
      LocalAuthManager._session_tokens_from_payload now p username fb = .ok tokens →
      (tokens.bearer_token =
        if pyStrip (p.id_token.getD "") = "" then pyStrip (p.access_token.getD "")
        else pyStrip (p.id_token.getD "")) ∧
      (pyStrip (p.refresh_token.getD "") = "" →
        tokens.refresh_token =
          if pyStrip (fb.getD "") = "" then none else some (pyStrip (fb.getD ""))) ∧
      (pyStrip (p.refresh_token.getD "") ≠ "" →
        tokens.refresh_token = some (pyStrip (p.refresh_token.getD ""))) ∧
      tokens.expires_at_epoch = now + max (_to_int p.expires_in 3600) 60 ∧
      now + 60 ≤ tokens.expires_at_epoch) ∧
    _to_int none 3600 = 3600 ∧
    _to_int (some .null) 3600 = 3600 ∧
    (∀ s, pyInt? s = none → _to_int (some (.str s)) 3600 = 3600) ∧
    (∀ n : Int, _to_int (some (.num n)) 3600 = n) := by
  refine ⟨?_, ?_, rfl, rfl, ?_, fun n => rfl⟩
  · intro hid hacc
    simp [LocalAuthManager._session_tokens_from_payload, hid, hacc]
  · intro tokens htok
    by_cases hid : pyStrip (p.id_token.getD "") = "" ∧ pyStrip (p.access_token.getD "") = ""
    · simp [LocalAuthManager._session_tokens_from_payload, hid] at htok
    · simp only [LocalAuthManager._session_tokens_from_payload, if_neg hid,
        Except.ok.injEq] at htok
      subst htok
      refine ⟨?_, ?_, ?_, rfl, ?_⟩
      · by_cases h : pyStrip (p.id_token.getD "") = "" <;>
          simp [SessionTokens.bearer_token, h]
      · intro h
        simp [h]
      · intro h
        simp [h]
      · exact add_le_add_left (le_max_right _ _) now
  · intro s hs
    simp [_to_int, hs]

/-- C7 witness: the 502 on an all-blank payload, and the shaped tokens for a
payload with a padded ID token, a blank refresh token (falling back to the
held one) and an unparsable `expires_in` (defaulting to 3600). -/
theorem c7_payload_shaping_witness :
    LocalAuthManager._session_tokens_from_payload 1000 {} none none =
      .error ⟨502, "Missing OAuth bearer token."⟩ ∧
    ∃ tokens,
      LocalAuthManager._session_tokens_from_payload 1000
        { id_token := some " id-token-1 ", access_token := some "",
          refresh_token := some "", expires_in := some (.str "oops") }
        (some "user@example.com") (some "refresh-token-1") = .ok tokens ∧
      tokens.bearer_token = "id-token-1" ∧
      tokens.refresh_token = some "refresh-token-1" ∧
      tokens.expires_at_epoch = 1000 + 3600 := by
  refine ⟨(c7_payload_shaping 1000 {} none none).1 rfl rfl, _, rfl, rfl, rfl, rfl⟩

/-! ### C1 — a revoked or missing session never yields a bearer token -/

/-- C1: whenever the session identifier is blank, resolves to no stored
`BrowserSession` row, or resolves to a revoked row, `get_bearer_token` fails
with the 401 authentication-required error (for every oracle, time and
`force_refresh`) and `get_user_key_for_session` returns no user key. -/
theorem c1_no_bearer_for_missing_or_revoked (m : LocalAuthManager)
    (refresh : RefreshOracle) (now : Int) (st : Store) (session_id : Option String)
    (force_refresh : Bool)
    (h : pyStrip (session_id.getD "") = "" ∨
         st.getSession (pyStrip (session_id.getD "")) = none ∨
         ∃ r, st.getSession (pyStrip (session_id.getD "")) = some r ∧ r.revoked = true) :
    (m.get_bearer_token refresh now st session_id force_refresh).2.2 =
      .error ⟨401, authRequiredDetail⟩ ∧
    LocalAuthManager.get_user_key_for_session st session_id = none := by
  rcases h with h | h | ⟨r, hr, hrev⟩
  · constructor <;>
      simp [LocalAuthManager.get_bearer_token, LocalAuthManager.get_user_key_for_session, h]
  · constructor <;>
      by_cases he : pyStrip (session_id.getD "") = "" <;>
        simp [LocalAuthManager.get_bearer_token, LocalAuthManager.get_user_key_for_session,
          h, he]
  · constructor <;>
      by_cases he : pyStrip (session_id.getD "") = "" <;>
        simp [LocalAuthManager.get_bearer_token, LocalAuthManager.get_user_key_for_session,
          hr, hrev, he]

/-- C1 witness: concretely, the blank id, an unknown id, and a revoked row
all fail 401 and yield no user key. -/
theorem c1_no_bearer_witness :
    ((testManager.get_bearer_token okOracle 5000 testStore (some "  ") false).2.2 =
        .error ⟨401, authRequiredDetail⟩ ∧
      LocalAuthManager.get_user_key_for_session testStore (some "  ") = none) ∧
    ((testManager.get_bearer_token okOracle 5000 testStore (some "unknown") false).2.2 =
        .error ⟨401, authRequiredDetail⟩ ∧
      LocalAuthManager.get_user_key_for_session testStore (some "unknown") = none) ∧
    ((testManager.get_bearer_token okOracle 5000
          ⟨[{ liveSession with revoked := true }], [testUser]⟩ (some "s1") false).2.2 =
        .error ⟨401, authRequiredDetail⟩ ∧
      LocalAuthManager.get_user_key_for_session
          ⟨[{ liveSession with revoked := true }], [testUser]⟩ (some "s1") = none) := by
  refine ⟨?_, ?_, ?_⟩
  · exact c1_no_bearer_for_missing_or_revoked testManager okOracle 5000 testStore
      (some "  ") false (Or.inl rfl)
  · exact c1_no_bearer_for_missing_or_revoked testManager okOracle 5000 testStore
      (some "unknown") false (Or.inr (Or.inl rfl))
  · exact c1_no_bearer_for_missing_or_revoked testManager okOracle 5000
      ⟨[{ liveSession with revoked := true }], [testUser]⟩
      (some "s1") false (Or.inr (Or.inr ⟨_, rfl, rfl⟩))

/-! ### Helper lemmas about the store and the `get_bearer_token` branches -/

/-- Updating the session with a `session_id`-preserving mutation maps the
lookup result through the mutation. -/
theorem find?_session_map (sid : String) (f : BrowserSession → BrowserSession)
    (hf : ∀ r, (f r).session_id = r.session_id) (l : List BrowserSession) :
    (l.map (fun r => if r.session_id = sid then f r else r)).find?
        (fun r => r.session_id = sid) =
      (l.find? (fun r => r.session_id = sid)).map f := by
  induction l with
  | nil => rfl
  | cons a l ih =>
    by_cases h : a.session_id = sid
    · simp [List.find?_cons, h, hf]
    · simp [List.find?_cons, h, ih]

/-- `Store` version of `find?_session_map`. -/
theorem getSession_updateSession (st : Store) (sid : String)
    (f : BrowserSession → BrowserSession) (hf : ∀ r, (f r).session_id = r.session_id) :
    (st.updateSession sid f).getSession sid = (st.getSession sid).map f :=
  find?_session_map sid f hf st.sessions

/-- User-row updates do not change session lookups. -/
theorem getSession_updateUser (st : Store) (uk : String)
    (g : UserAuthState → UserAuthState) (sid : String) :
    (st.updateUser uk g).getSession sid = st.getSession sid := rfl

/-- `get_bearer_token` on a blank-or-unresolvable or revoked session: 401,
no bridge call, store unchanged. -/
theorem get_bearer_token_unresolvable (m : LocalAuthManager) (refresh : RefreshOracle)
    (now : Int) (st : Store) (session_id : Option String) (force_refresh : Bool)
    (h : pyStrip (session_id.getD "") = "" ∨
         st.getSession (pyStrip (session_id.getD "")) = none ∨
         ∃ r, st.getSession (pyStrip (session_id.getD "")) = some r ∧ r.revoked = true) :
    m.get_bearer_token refresh now st session_id force_refresh =
      (st, [], .error ⟨401, authRequiredDetail⟩) := by
  rcases h with h | h | ⟨r, hr, hrev⟩
  · simp [LocalAuthManager.get_bearer_token, h]
  · by_cases he : pyStrip (session_id.getD "") = "" <;>
      simp [LocalAuthManager.get_bearer_token, h, he]
  · by_cases he : pyStrip (session_id.getD "") = "" <;>
      simp [LocalAuthManager.get_bearer_token, hr, hrev, he]

/-- `get_user_key_for_session` on the same inputs: no user key. -/
theorem get_user_key_unresolvable (st : Store) (session_id : Option String)
    (h : pyStrip (session_id.getD "") = "" ∨
         st.getSession (pyStrip (session_id.getD "")) = none ∨
         ∃ r, st.getSession (pyStrip (session_id.getD "")) = some r ∧ r.revoked = true) :
    LocalAuthManager.get_user_key_for_session st session_id = none := by
  rcases h with h | h | ⟨r, hr, hrev⟩
  · simp [LocalAuthManager.get_user_key_for_session, h]
  · by_cases he : pyStrip (session_id.getD "") = "" <;>
      simp [LocalAuthManager.get_user_key_for_session, h, he]
  · by_cases he : pyStrip (session_id.getD "") = "" <;>
      simp [LocalAuthManager.get_user_key_for_session, hr, hrev, he]

/-- In the cached branch (live session, user present, token within the
skewed expiry, no forced refresh) `get_bearer_token` commits only the
`last_seen` touch, never calls the bridge, and answers from
`_resolve_bearer_token`. -/
theorem get_bearer_token_cached (m : LocalAuthManager) (refresh : RefreshOracle)
    (now : Int) (st : Store) (session_id : Option String) (nsid : String)
    (r : BrowserSession) (u : UserAuthState)
    (hn : pyStrip (session_id.getD "") = nsid) (hne : nsid ≠ "")
    (hr : st.getSession nsid = some r) (hrev : r.revoked = false)
    (hu : st.getUser r.user_key = some u)
    (hv : m._has_valid_session_token now r = true) :
    m.get_bearer_token refresh now st session_id false =
      (st.updateSession nsid (fun x => { x with last_seen_epoch := now }), [],
       match LocalAuthManager._resolve_bearer_token r with
       | .error e => .error e
       | .ok bearer => .ok (bearer, r.user_key)) := by
  simp [LocalAuthManager.get_bearer_token, hn, hne, hr, hrev, hu, hv]

/-- In the refresh branch (live session, user present, token past the skewed
expiry or refresh forced, decryptable refresh token) `get_bearer_token`
consults the oracle once with the decrypted refresh token and dispatches on
its outcome exactly as the code does. -/
theorem get_bearer_token_refresh_path (m : LocalAuthManager) (refresh : RefreshOracle)
    (now : Int) (st : Store) (session_id : Option String) (nsid : String)
    (r : BrowserSession) (u : UserAuthState) (rt : String) (force_refresh : Bool)
    (hn : pyStrip (session_id.getD "") = nsid) (hne : nsid ≠ "")
    (hr : st.getSession nsid = some r) (hrev : r.revoked = false)
    (hu : st.getUser r.user_key = some u)
    (hnv : (!force_refresh && m._has_valid_session_token now r) = false)
    (hrt : m.token_cipher.decrypt u.refresh_token_encrypted = some rt)
    (hrtne : rt ≠ "") :
    m.get_bearer_token refresh now st session_id force_refresh =
      match refresh rt with
      | .error exc =>
        if exc.status_code = 400 ∨ exc.status_code = 401 ∨ exc.status_code = 403 then
          ((st.updateSession nsid fun x => { x with revoked := true }).updateUser r.user_key
             (fun y => { y with refresh_token_encrypted := none, updated_at_epoch := now }),
           [rt], .error ⟨401, sessionExpiredDetail⟩)
        else (st, [rt], .error exc)
      | .ok token_payload =>
        match LocalAuthManager._session_tokens_from_payload now token_payload
            u.username (some rt) with
        | .error e => (st, [rt], .error e)
        | .ok tokens =>
            ((st.updateSession nsid
                (fun x => LocalAuthManager._apply_tokens_to_session now x tokens)).updateUser
               r.user_key
               (fun y => { y with
                   refresh_token_encrypted := m.token_cipher.encrypt tokens.refresh_token
                   updated_at_epoch := now }),
             [rt], .ok (tokens.bearer_token, r.user_key)) := by
  simp [LocalAuthManager.get_bearer_token, hn, hne, hr, hrev, hu, hnv, hrt, hrtne]

/-- `_resolve_bearer_token` fails 401 exactly when both stripped tokens are
blank. -/
theorem resolve_bearer_blank (r : BrowserSession)
    (hid : pyStrip r.id_token = "") (hacc : pyStrip r.access_token = "") :
    LocalAuthManager._resolve_bearer_token r = .error ⟨401, authRequiredDetail⟩ := by
  simp [LocalAuthManager._resolve_bearer_token, hid, hacc]

/-- `_resolve_bearer_token` returns the stripped ID token, else the stripped
access token, whenever one of them is non-blank. -/
theorem resolve_bearer_some (r : BrowserSession)
    (h : ¬(pyStrip r.id_token = "" ∧ pyStrip r.access_token = "")) :
    LocalAuthManager._resolve_bearer_token r =
      .ok (if pyStrip r.id_token = "" then pyStrip r.access_token
           else pyStrip r.id_token) := by
  by_cases hid : pyStrip r.id_token = ""
  · have hacc : pyStrip r.access_token ≠ "" := fun hacc => h ⟨hid, hacc⟩
    simp [LocalAuthManager._resolve_bearer_token, hid, hacc]
  · simp [LocalAuthManager._resolve_bearer_token, hid]

/-! ### C10 — blank cached bearer material raises despite a valid expiry -/

/-- C10: a live session with owning user whose `expires_at - skew` is still in
the future but whose stored id and access tokens are both blank after
stripping makes `get_bearer_token` (without `force_refresh`) raise the 401
authentication-required error instead of returning a cached token. -/
theorem c10_blank_cached_tokens_raise (m : LocalAuthManager) (refresh : RefreshOracle)
    (now : Int) (st : Store) (session_id : Option String) (nsid : String)
    (r : BrowserSession) (u : UserAuthState)
    (hn : pyStrip (session_id.getD "") = nsid) (hne : nsid ≠ "")
    (hr : st.getSession nsid = some r) (hrev : r.revoked = false)
    (hu : st.getUser r.user_key = some u)
    (hvalid : r.expires_at_epoch - m.settings.auth_refresh_skew_seconds > now)
    (hid : pyStrip r.id_token = "") (hacc : pyStrip r.access_token = "") :
    (m.get_bearer_token refresh now st session_id false).2.2 =
      .error ⟨401, authRequiredDetail⟩ := by
  have hv : m._has_valid_session_token now r = true := by
    simp [LocalAuthManager._has_valid_session_token]
    exact hvalid
  rw [get_bearer_token_cached m refresh now st session_id nsid r u hn hne hr hrev hu hv,
    resolve_bearer_blank r hid hacc]

/-- C10 witness: a live, far-from-expiry session whose stored tokens are
whitespace fails 401. -/
theorem c10_blank_cached_tokens_witness :
    (testManager.get_bearer_token okOracle 5000
        ⟨[{ liveSession with id_token := " ", access_token := "" }], [testUser]⟩
        (some "s1") false).2.2 = .error ⟨401, authRequiredDetail⟩ := by
  exact c10_blank_cached_tokens_raise testManager okOracle 5000
    ⟨[{ liveSession with id_token := " ", access_token := "" }], [testUser]⟩
    (some "s1") "s1" { liveSession with id_token := " ", access_token := "" } testUser
    rfl (by decide) rfl rfl rfl (by decide) (by decide) (by decide)

/-! ### C6 — skew-gated refresh -/

/-- C6: without `force_refresh`, on a live session with its user row present,
`get_bearer_token` leaves the bridge alone while `expires_at - skew > now`
(committing only the `last_seen` touch and returning the cached bearer), and
invokes the refresh grant with the decrypted refresh token as soon as
`expires_at - skew <= now` — whatever the raw `expires_at` is. -/
theorem c6_skew_gates_bridge (m : LocalAuthManager) (refresh : RefreshOracle)
    (now : Int) (st : Store) (session_id : Option String) (nsid : String)
    (r : BrowserSession) (u : UserAuthState)
    (hn : pyStrip (session_id.getD "") = nsid) (hne : nsid ≠ "")
    (hr : st.getSession nsid = some r) (hrev : r.revoked = false)
    (hu : st.getUser r.user_key = some u) :
    (r.expires_at_epoch - m.settings.auth_refresh_skew_seconds > now →
      ¬(pyStrip r.id_token = "" ∧ pyStrip r.access_token = "") →
      m.get_bearer_token refresh now st session_id false =
        (st.updateSession nsid (fun x => { x with last_seen_epoch := now }), [],
         .ok (if pyStrip r.id_token = "" then pyStrip r.access_token
              else pyStrip r.id_token, r.user_key))) ∧
    (¬(r.expires_at_epoch - m.settings.auth_refresh_skew_seconds > now) →
      ∀ rt, m.token_cipher.decrypt u.refresh_token_encrypted = some rt → rt ≠ "" →
      (m.get_bearer_token refresh now st session_id false).2.1 = [rt]) := by
  constructor
  · intro hfresh hb
    have hv : m._has_valid_session_token now r = true := by
      simp [LocalAuthManager._has_valid_session_token]
      exact hfresh
    rw [get_bearer_token_cached m refresh now st session_id nsid r u hn hne hr hrev hu hv,
      resolve_bearer_some r hb]
  · intro hstale rt hrt hrtne
    have hnv : (!false && m._has_valid_session_token now r) = false := by
      simp [LocalAuthManager._has_valid_session_token, hstale]
    rw [get_bearer_token_refresh_path m refresh now st session_id nsid r u rt false
      hn hne hr hrev hu hnv hrt hrtne]
    cases refresh rt with
    | error exc =>
      by_cases hc : exc.status_code = 400 ∨ exc.status_code = 401 ∨ exc.status_code = 403 <;>
        simp [hc]
    | ok tp =>
      cases h2 : LocalAuthManager._session_tokens_from_payload now tp u.username (some rt) <;>
        simp [h2]

/-- C6 witness: at `now = 5000` (threshold 9880 still ahead) the call is
answered from the cache with no bridge call; at `now = 9900`, past the
threshold but before the raw expiry 10000, the bridge is called with the
stored refresh token. -/
theorem c6_skew_gates_bridge_witness :
    testManager.get_bearer_token okOracle 5000 testStore (some "s1") false =
      (testStore.updateSession "s1" (fun x => { x with last_seen_epoch := 5000 }), [],
       .ok ("id-token-1", "user@example.com")) ∧
    ((9900 : Int) < liveSession.expires_at_epoch ∧
      (testManager.get_bearer_token okOracle 9900 testStore (some "s1") false).2.1 =
        ["refresh-token-1"]) := by
  have h5000 := c6_skew_gates_bridge testManager okOracle 5000 testStore (some "s1") "s1"
    liveSession testUser rfl (by decide) rfl rfl rfl
  have h9900 := c6_skew_gates_bridge testManager okOracle 9900 testStore (some "s1") "s1"
    liveSession testUser rfl (by decide) rfl rfl rfl
  refine ⟨?_, by decide, h9900.2 (by decide) "refresh-token-1" rfl (by decide)⟩
  have := h5000.1 (by decide) (by decide)
  simpa using this

/-- Updating the user row with a `user_key`-preserving mutation maps the
lookup result through the mutation. -/
theorem find?_user_map (uk : String) (g : UserAuthState → UserAuthState)
    (hg : ∀ u, (g u).user_key = u.user_key) (l : List UserAuthState) :
    (l.map (fun u => if u.user_key = uk then g u else u)).find?
        (fun u => u.user_key = uk) =
      (l.find? (fun u => u.user_key = uk)).map g := by
  induction l with
  | nil => rfl
  | cons a l ih =>
    by_cases h : a.user_key = uk
    · simp [List.find?_cons, h, hg]
    · simp [List.find?_cons, h, ih]

/-- `Store` version of `find?_user_map`. -/
theorem getUser_updateUser (st : Store) (uk : String)
    (g : UserAuthState → UserAuthState) (hg : ∀ u, (g u).user_key = u.user_key) :
    (st.updateUser uk g).getUser uk = (st.getUser uk).map g :=
  find?_user_map uk g hg st.users

/-- Session-row updates do not change user lookups. -/
theorem getUser_updateSession (st : Store) (sid : String)
    (f : BrowserSession → BrowserSession) (uk : String) :
    (st.updateSession sid f).getUser uk = st.getUser uk := rfl

/-! ### C2 — classified refresh failure revokes, and what a retry sees -/

/-- C2 counterexample: after a classified 401 refresh failure the retry does
fail deterministically, but not "the same way": the first call raises the
session-expired 401, the retry (here with a bridge that would now succeed)
raises the authentication-required 401 of a revoked session — a different
taxonomy member with a different message. -/
theorem c2_retry_counterexample :
    (testManager.get_bearer_token (failOracle 401) 9900 testStore (some "s1") false).2.2 =
      .error ⟨401, sessionExpiredDetail⟩ ∧
    (testManager.get_bearer_token okOracle 9900
        (testManager.get_bearer_token (failOracle 401) 9900 testStore (some "s1") false).1
        (some "s1") false).2.2 = .error ⟨401, authRequiredDetail⟩ ∧
    (⟨401, sessionExpiredDetail⟩ : HTTPException) ≠ ⟨401, authRequiredDetail⟩ := by
  exact ⟨rfl, rfl, by decide⟩

/-- C2 (amended): on a classified 400/401/403 refresh failure the manager
commits `revoked = true` on the session row and nulls the user's encrypted
refresh token, raising the session-expired 401; every subsequent
`get_bearer_token` with the same session id — under any oracle, even one
that would succeed — deterministically fails with a 401 without consulting
the bridge, though as the authentication-required error of a revoked
session rather than as `SessionExpired` again. -/
theorem c2_classified_failure_revokes (m : LocalAuthManager) (refresh : RefreshOracle)
    (now : Int) (st : Store) (session_id : Option String) (nsid : String)
    (r : BrowserSession) (u : UserAuthState) (rt : String) (force_refresh : Bool)
    (exc : HTTPException)
    (hn : pyStrip (session_id.getD "") = nsid) (hne : nsid ≠ "")
    (hr : st.getSession nsid = some r) (hrev : r.revoked = false)
    (hu : st.getUser r.user_key = some u)
    (hnv : force_refresh = true ∨
      ¬(r.expires_at_epoch - m.settings.auth_refresh_skew_seconds > now))
    (hrt : m.token_cipher.decrypt u.refresh_token_encrypted = some rt) (hrtne : rt ≠ "")
    (hfail : refresh rt = .error exc)
    (hcls : exc.status_code = 400 ∨ exc.status_code = 401 ∨ exc.status_code = 403) :
    m.get_bearer_token refresh now st session_id force_refresh =
      ((st.updateSession nsid fun x => { x with revoked := true }).updateUser r.user_key
         (fun y => { y with refresh_token_encrypted := none, updated_at_epoch := now }),
       [rt], .error ⟨401, sessionExpiredDetail⟩) ∧
    (m.get_bearer_token refresh now st session_id force_refresh).1.getSession nsid =
      some { r with revoked := true } ∧
    (m.get_bearer_token refresh now st session_id force_refresh).1.getUser r.user_key =
      some { u with refresh_token_encrypted := none, updated_at_epoch := now } ∧
    ∀ (refresh2 : RefreshOracle) (now2 : Int) (force2 : Bool),
      m.get_bearer_token refresh2 now2
          (m.get_bearer_token refresh now st session_id force_refresh).1
          session_id force2 =
        ((m.get_bearer_token refresh now st session_id force_refresh).1,
         [], .error ⟨401, authRequiredDetail⟩) := by
  have hnvb : (!force_refresh && m._has_valid_session_token now r) = false := by
    rcases hnv with h | h
    · simp [h]
    · simp [LocalAuthManager._has_valid_session_token, h]
  have h1 : m.get_bearer_token refresh now st session_id force_refresh =
      ((st.updateSession nsid fun x => { x with revoked := true }).updateUser r.user_key
         (fun y => { y with refresh_token_encrypted := none, updated_at_epoch := now }),
       [rt], .error ⟨401, sessionExpiredDetail⟩) := by
    rw [get_bearer_token_refresh_path m refresh now st session_id nsid r u rt force_refresh
      hn hne hr hrev hu hnvb hrt hrtne, hfail]
    simp [hcls]
  have h2 : (m.get_bearer_token refresh now st session_id force_refresh).1.getSession nsid =
      some { r with revoked := true } := by
    rw [h1]
    show ((st.updateSession nsid fun x => { x with revoked := true }).updateUser r.user_key
      (fun y => { y with refresh_token_encrypted := none, updated_at_epoch := now })).getSession
        nsid = some { r with revoked := true }
    rw [getSession_updateUser,
      getSession_updateSession st nsid (fun x => { x with revoked := true }) (fun x => rfl), hr]
    rfl
  refine ⟨h1, h2, ?_, ?_⟩
  · rw [h1]
    show ((st.updateSession nsid fun x => { x with revoked := true }).updateUser r.user_key
      (fun y => { y with refresh_token_encrypted := none, updated_at_epoch := now })).getUser
        r.user_key = _
    rw [getUser_updateUser _ r.user_key
        (fun y => { y with refresh_token_encrypted := none, updated_at_epoch := now })
        (fun x => rfl),
      getUser_updateSession, hu]
    rfl
  · intro refresh2 now2 force2
    exact get_bearer_token_unresolvable m refresh2 now2 _ session_id force2
      (Or.inr (Or.inr ⟨{ r with revoked := true }, by rw [hn]; exact h2, rfl⟩))

/-- C2 witness: the concrete revocation cascade at `now = 9900` under a
classified 401 oracle, and a retry under a succeeding oracle still failing. -/
theorem c2_classified_failure_witness :
    testManager.get_bearer_token (failOracle 401) 9900 testStore (some "s1") false =
      ((testStore.updateSession "s1" fun x => { x with revoked := true }).updateUser
         "user@example.com"
         (fun y => { y with refresh_token_encrypted := none, updated_at_epoch := 9900 }),
       ["refresh-token-1"], .error ⟨401, sessionExpiredDetail⟩) ∧
    ∀ (now2 : Int) (force2 : Bool),
      (testManager.get_bearer_token okOracle now2
          (testManager.get_bearer_token (failOracle 401) 9900 testStore (some "s1") false).1
          (some "s1") force2).2.2 = .error ⟨401, authRequiredDetail⟩ := by
  have h := c2_classified_failure_revokes testManager (failOracle 401) 9900 testStore
    (some "s1") "s1" liveSession testUser "refresh-token-1" false ⟨401, "refresh failed"⟩
    rfl (by decide) rfl rfl rfl (Or.inr (by decide)) rfl (by decide) rfl
    (Or.inr (Or.inl rfl))
  exact ⟨h.1, fun now2 force2 => by rw [h.2.2.2 okOracle now2 force2]⟩

/-! ### C3 — a 502 refresh failure mutates nothing -/

/-- C3: when the refresh grant fails with a classified 502, `get_bearer_token`
re-raises that very error and the committed store is exactly the input store
— no session revoked, no refresh token cleared — so a later call on the same
session, when the oracle succeeds and the payload shapes, still succeeds
using the same persisted refresh token. -/
theorem c3_upstream_unavailable_preserves_state (m : LocalAuthManager)
    (refresh : RefreshOracle) (now : Int) (st : Store) (session_id : Option String)
    (nsid : String) (r : BrowserSession) (u : UserAuthState) (rt : String)
    (force_refresh : Bool) (exc : HTTPException)
    (hn : pyStrip (session_id.getD "") = nsid) (hne : nsid ≠ "")
    (hr : st.getSession nsid = some r) (hrev : r.revoked = false)
    (hu : st.getUser r.user_key = some u)
    (hnv : force_refresh = true ∨
      ¬(r.expires_at_epoch - m.settings.auth_refresh_skew_seconds > now))
    (hrt : m.token_cipher.decrypt u.refresh_token_encrypted = some rt) (hrtne : rt ≠ "")
    (hfail : refresh rt = .error exc) (h502 : exc.status_code = 502) :
    m.get_bearer_token refresh now st session_id force_refresh =
      (st, [rt], .error exc) ∧
    ∀ (refresh2 : RefreshOracle) (now2 : Int) (force2 : Bool)
      (payload : TokenPayload) (tokens : SessionTokens),
      refresh2 rt = .ok payload →
      (force2 = true ∨
        ¬(r.expires_at_epoch - m.settings.auth_refresh_skew_seconds > now2)) →
      LocalAuthManager._session_tokens_from_payload now2 payload u.username (some rt) =
        .ok tokens →
      (m.get_bearer_token refresh2 now2 st session_id force2).2.2 =
        .ok (tokens.bearer_token, r.user_key) := by
  constructor
  · have hnvb : (!force_refresh && m._has_valid_session_token now r) = false := by
      rcases hnv with h | h
      · simp [h]
      · simp [LocalAuthManager._has_valid_session_token, h]
    rw [get_bearer_token_refresh_path m refresh now st session_id nsid r u rt force_refresh
      hn hne hr hrev hu hnvb hrt hrtne, hfail]
    have : ¬(exc.status_code = 400 ∨ exc.status_code = 401 ∨ exc.status_code = 403) := by
      simp [h502]
    simp [this]
  · intro refresh2 now2 force2 payload tokens hok hnv2 hshape
    have hnvb2 : (!force2 && m._has_valid_session_token now2 r) = false := by
      rcases hnv2 with h | h
      · simp [h]
      · simp [LocalAuthManager._has_valid_session_token, h]
    rw [get_bearer_token_refresh_path m refresh2 now2 st session_id nsid r u rt force2
      hn hne hr hrev hu hnvb2 hrt hrtne, hok]
    simp [hshape]

/-- C3 witness: a 502 at `now = 9900` leaves `testStore` untouched, and the
retry with a succeeding oracle returns the fresh ID token. -/
theorem c3_upstream_unavailable_witness :
    testManager.get_bearer_token (failOracle 502) 9900 testStore (some "s1") false =
      (testStore, ["refresh-token-1"], .error ⟨502, "refresh failed"⟩) ∧
    (testManager.get_bearer_token okOracle 9900 testStore (some "s1") false).2.2 =
      .ok ("id-token-2", "user@example.com") := by
  have h := c3_upstream_unavailable_preserves_state testManager (failOracle 502) 9900
    testStore (some "s1") "s1" liveSession testUser "refresh-token-1" false
    ⟨502, "refresh failed"⟩ rfl (by decide) rfl rfl rfl (Or.inr (by decide)) rfl
    (by decide) rfl rfl
  refine ⟨h.1, ?_⟩
  have h2 := h.2 okOracle 9900 false
    { id_token := some "id-token-2", access_token := some "access-token-2",
      refresh_token := none, expires_in := some (.num 3600) }
    { access_token := "access-token-2", id_token := "id-token-2",
      refresh_token := some "refresh-token-1", expires_at_epoch := 13500,
      username := some "user@example.com" }
    rfl (Or.inr (by decide)) rfl
  simpa using h2

/-- Membership extraction from a session lookup. -/
theorem mem_of_getSession (st : Store) (sid : String) (x : BrowserSession)
    (h : st.getSession sid = some x) : x ∈ st.sessions :=
  List.mem_of_find?_eq_some h

/-! ### C9 — logout all-devices fan-out -/

/-- C9: `logout(session_id, all_devices := true)` on a resolvable session with
an existing owning user row nulls that user's stored refresh token, revokes
every session row sharing the `user_key`, and afterwards `get_bearer_token`
fails 401 on every session id resolving to a row of that user — the named
session and any sibling alike. -/
theorem c9_logout_all_devices (m : LocalAuthManager) (now : Int) (st : Store)
    (session_id : Option String) (nsid : String) (r : BrowserSession) (u : UserAuthState)
    (hn : pyStrip (session_id.getD "") = nsid) (hne : nsid ≠ "")
    (hr : st.getSession nsid = some r) (hu : st.getUser r.user_key = some u) :
    (LocalAuthManager.logout now st session_id true).1.getUser r.user_key =
      some { u with refresh_token_encrypted := none, updated_at_epoch := now } ∧
    (∀ r2, r2 ∈ (LocalAuthManager.logout now st session_id true).1.sessions →
      r2.user_key = r.user_key → r2.revoked = true) ∧
    ∀ (refresh2 : RefreshOracle) (now2 : Int) (force2 : Bool) (sid2 : Option String)
      (r2 : BrowserSession),
      (LocalAuthManager.logout now st session_id true).1.getSession
          (pyStrip (sid2.getD "")) = some r2 →
      r2.user_key = r.user_key →
      (m.get_bearer_token refresh2 now2 (LocalAuthManager.logout now st session_id true).1
          sid2 force2).2.2 = .error ⟨401, authRequiredDetail⟩ := by
  have hl : LocalAuthManager.logout now st session_id true =
      ({ st.updateUser r.user_key
           (fun y => { y with refresh_token_encrypted := none, updated_at_epoch := now }) with
         sessions := st.sessions.map
           (fun x => if x.user_key = r.user_key then { x with revoked := true } else x) },
       LocalAuthManager._anonymous_status) := by
    simp [LocalAuthManager.logout, hn, hne, hr, hu, Store.updateUser]
  have hrev2 : ∀ r2, r2 ∈ (LocalAuthManager.logout now st session_id true).1.sessions →
      r2.user_key = r.user_key → r2.revoked = true := by
    intro r2 hmem huk
    rw [hl] at hmem
    obtain ⟨a, _, rfl⟩ := List.mem_map.1 hmem
    by_cases h : a.user_key = r.user_key
    · simp [h]
    · simp [h] at huk
  refine ⟨?_, hrev2, ?_⟩
  · rw [hl]
    show (st.updateUser r.user_key
        (fun y => { y with refresh_token_encrypted := none, updated_at_epoch := now })).getUser
        r.user_key = _
    rw [getUser_updateUser st r.user_key
      (fun y => { y with refresh_token_encrypted := none, updated_at_epoch := now })
      (fun y => rfl), hu]
    rfl
  · intro refresh2 now2 force2 sid2 r2 hgs huk
    by_cases hblank : pyStrip (sid2.getD "") = ""
    · rw [(get_bearer_token_unresolvable m refresh2 now2 _ sid2 force2 (Or.inl hblank))]
    · rw [(get_bearer_token_unresolvable m refresh2 now2 _ sid2 force2
        (Or.inr (Or.inr ⟨r2, hgs, hrev2 r2 (mem_of_getSession _ _ _ hgs) huk⟩)))]

/-- C9 witness: logging out `s1` with `all_devices` clears the user's refresh
token and makes `get_bearer_token` fail on both `s1` and `s2`. -/
theorem c9_logout_all_devices_witness :
    (LocalAuthManager.logout 6000 twoSessionStore (some "s1") true).1.getUser
        "user@example.com" =
      some { testUser with refresh_token_encrypted := none, updated_at_epoch := 6000 } ∧
    (testManager.get_bearer_token okOracle 7000
        (LocalAuthManager.logout 6000 twoSessionStore (some "s1") true).1
        (some "s1") false).2.2 = .error ⟨401, authRequiredDetail⟩ ∧
    (testManager.get_bearer_token okOracle 7000
        (LocalAuthManager.logout 6000 twoSessionStore (some "s1") true).1
        (some "s2") false).2.2 = .error ⟨401, authRequiredDetail⟩ := by
  have h := c9_logout_all_devices testManager 6000 twoSessionStore (some "s1") "s1"
    liveSession testUser rfl (by decide) rfl rfl
  exact ⟨h.1, h.2.2 okOracle 7000 false (some "s1") { liveSession with revoked := true } rfl rfl,
    h.2.2 okOracle 7000 false (some "s2") { liveSession2 with revoked := true } rfl rfl⟩

/-! ### C4 — what can escape `status` -/

/-- The only error `_session_tokens_from_payload` produces is the
missing-bearer 502. -/
theorem shaping_error_eq (now : Int) (p : TokenPayload) (username fb : Option String)
    (e : HTTPException)
    (h : LocalAuthManager._session_tokens_from_payload now p username fb = .error e) :
    e = ⟨502, "Missing OAuth bearer token."⟩ := by
  by_cases hb : pyStrip (p.id_token.getD "") = "" ∧ pyStrip (p.access_token.getD "") = ""
  · simp [LocalAuthManager._session_tokens_from_payload, hb] at h
    exact h.symm
  · simp [LocalAuthManager._session_tokens_from_payload, hb] at h

/-- C4 counterexample: on a live but expired session whose refresh grant
succeeds with a payload carrying no bearer material, `status` raises the 502
missing-bearer error instead of returning a status dictionary — the `try`
block wraps only the refresh call, not the payload shaping after it. -/
theorem c4_status_counterexample :
    (testManager.status blankPayloadOracle 9900 testStore (some "s1")).2 =
      .error ⟨502, "Missing OAuth bearer token."⟩ := rfl

/-- C4 (amended): `status` converts every failure of session resolution, of
token validity checking and of the refresh-grant call itself into a returned
status dictionary; the one failure it does not convert — the only exception
that can escape — is the 502 missing-bearer error raised when the refresh
grant succeeds but its payload lacks bearer material. -/
theorem status_error_is_shaping (m : LocalAuthManager) (oracle : RefreshOracle)
    (now : Int) (st : Store) (session_id : Option String) (e : HTTPException)
    (h : (m.status oracle now st session_id).2 = .error e) :
    e = ⟨502, "Missing OAuth bearer token."⟩ := by
  by_cases hb : pyStrip (session_id.getD "") = ""
  · simp [LocalAuthManager.status, hb] at h
  cases hs : st.getSession (pyStrip (session_id.getD "")) with
  | none => simp [LocalAuthManager.status, hb, hs] at h
  | some r =>
    by_cases hrv : r.revoked
    · simp [LocalAuthManager.status, hb, hs, hrv] at h
    cases hu : st.getUser r.user_key with
    | none => simp [LocalAuthManager.status, hb, hs, hrv, hu] at h
    | some u =>
      by_cases hv : m._has_valid_session_token now r = true
      · simp [LocalAuthManager.status, hb, hs, hrv, hu, hv] at h
      cases hd : m.token_cipher.decrypt u.refresh_token_encrypted with
      | none => simp [LocalAuthManager.status, hb, hs, hrv, hu, hv, hd] at h
      | some rt =>
        by_cases hrte : rt = ""
        · simp [LocalAuthManager.status, hb, hs, hrv, hu, hv, hd, hrte] at h
        cases ho : oracle rt with
        | error exc =>
          by_cases hc : exc.status_code = 400 ∨ exc.status_code = 401 ∨ exc.status_code = 403 <;>
            simp [LocalAuthManager.status, hb, hs, hrv, hu, hv, hd, hrte, ho, hc] at h
        | ok tp =>
          cases hsh : LocalAuthManager._session_tokens_from_payload now tp u.username
              (some rt) with
          | error e2 =>
            simp [LocalAuthManager.status, hb, hs, hrv, hu, hv, hd, hrte, ho, hsh] at h
            rw [← h]
            exact shaping_error_eq now tp u.username (some rt) e2 hsh
          | ok tokens =>
            simp [LocalAuthManager.status, hb, hs, hrv, hu, hv, hd, hrte, ho, hsh] at h

/-- C4 (amended): `status` converts every failure of session resolution, of
token validity checking and of the refresh-grant call itself into a returned
status dictionary; the one failure it does not convert — the only exception
that can escape — is the 502 missing-bearer error raised when the refresh
grant succeeds but its payload lacks bearer material. -/
theorem c4_status_total (m : LocalAuthManager) (oracle : RefreshOracle) (now : Int)
    (st : Store) (session_id : Option String) :
    (∃ p, (m.status oracle now st session_id).2 = .ok p) ∨
    (m.status oracle now st session_id).2 =
      .error ⟨502, "Missing OAuth bearer token."⟩ := by
  cases hres : (m.status oracle now st session_id).2 with
  | ok p => exact Or.inl ⟨p, rfl⟩
  | error e =>
    right
    exact congrArg Except.error (status_error_is_shaping m oracle now st session_id e hres)
